import Mathlib

/-!
Shallow embedding of the sensu-ec2-discovery program (portertech/sensu-ec2-discovery).

The repository holds several variants of the same pipeline:
  * the standalone Sensu Go variant (main.go: main, discoverInstance,
    createFilters, fetchRegions);
  * the sensuctl plugin variant (main.go: validateArgs, createFilters,
    registerInstance, discoverInstances);
  * the Sensu Classic variant (sensu-ec2-discovery.go: main,
    manageSensuProxyClient, discoverInstance, createFilters, fetchRegions).

AWS SDK pointer fields (*string) are modelled as Option String; dereferencing
a nil pointer is a Go runtime panic, modelled by an Option-valued result
(none = panic). HTTP and AWS calls are modelled by oracle arguments giving
each call its response; log.Fatalf calls os.Exit(1), modelled as an aborting
branch that short-circuits the surrounding loop with exit code 1.
-/

namespace SensuEc2

/-- An EC2 tag as the AWS SDK returns it: Key and Value are *string, so
either may be nil. -/
structure Tag where
  key : Option String
  value : Option String
deriving DecidableEq

/-- An ec2.Instance restricted to the fields the program reads: InstanceId
and PublicDnsName are *string, Tags is a slice of Tag. -/
structure Ec2Instance where
  instanceId : Option String
  publicDnsName : Option String
  tags : List Tag
deriving DecidableEq

/-- Go map assignment m[k] = v: any existing binding for k is replaced, a
fresh key is added. The map is an association list with at most one binding
per key. -/
def mapSet (m : List (String × String)) (k v : String) : List (String × String) :=
  (m.filter fun p => p.1 ≠ k) ++ [(k, v)]

/-- One iteration of the label-building loop: labels[*tag.Key] = *tag.Value.
Dereferencing a nil Key or Value panics, modelled as none. -/
def labelStep (m : List (String × String)) (t : Tag) : Option (List (String × String)) :=
  match t.key, t.value with
  | some k, some v => some (mapSet m k v)
  | _, _ => none

/-- The label-building loop shared by discoverInstance and registerInstance. -/
def tagsToLabels (tags : List Tag) : Option (List (String × String)) :=
  tags.foldlM labelStep []

/-- The dereferenced key/value pair of one tag; none if either pointer is
nil. Used to state theorems about the label maps the program builds. -/
def pairStep (t : Tag) : Option (String × String) :=
  match t.key, t.value with
  | some k, some v => some (k, v)
  | _, _ => none

/-- The fully dereferenced key/value pairs of a tag list, in order; none if
any Key or Value pointer is nil. -/
def tagPairs (tags : List Tag) : Option (List (String × String)) :=
  tags.mapM pairStep

/-- corev2.Entity restricted to the fields the program sets. -/
structure Entity where
  name : String
  entityNamespace : String
  entityClass : String
  labels : List (String × String)
deriving DecidableEq

/-- Entity construction in discoverInstance (standalone Sensu Go variant):
Name = *instance.InstanceId, Namespace = "default", EntityClass = "proxy",
Labels built from the tags. -/
def discoverInstance (inst : Ec2Instance) : Option Entity :=
  match inst.instanceId with
  | none => none
  | some id =>
    (tagsToLabels inst.tags).map fun ls =>
      { name := id, entityNamespace := "default", entityClass := "proxy", labels := ls }

/-- Entity construction in registerInstance (plugin variant): identical
except Namespace = config.sensuNamespace. -/
def registerInstance (sensuNamespace : String) (inst : Ec2Instance) : Option Entity :=
  match inst.instanceId with
  | none => none
  | some id =>
    (tagsToLabels inst.tags).map fun ls =>
      { name := id, entityNamespace := sensuNamespace, entityClass := "proxy", labels := ls }

/-- What the program does with an upsert HTTP status: fatal = log.Fatalf,
which exits the process; the other constructors are branches after which
execution continues. -/
inductive Outcome
  | fatal (status : Nat)
  | alreadyExists
  | registered
  | ok
deriving DecidableEq

/-- The status dispatch of discoverInstance (standalone Sensu Go variant):
404 is fatal, 409 is logged at info level and continues, any other status
of at least 300 is fatal, anything else continues. -/
def handleUpsertStatus (status : Nat) : Outcome :=
  if status = 404 then .fatal status
  else if status = 409 then .alreadyExists
  else if 300 ≤ status then .fatal status
  else .ok

/-- The status dispatch of registerInstance (plugin variant): like
handleUpsertStatus with one more informational branch for 201. -/
def handleRegisterStatus (status : Nat) : Outcome :=
  if status = 404 then .fatal status
  else if status = 409 then .alreadyExists
  else if 300 ≤ status then .fatal status
  else if status = 201 then .registered
  else .ok

/-- The per-pass upsert loop of the Sensu Go variants: each discovered
instance produces one upsert whose response status is handled by
handleUpsertStatus; a fatal branch calls os.Exit(1), aborting the loop.
Returns the outcomes of the attempted upserts and the process exit code. -/
def runUpserts : List Nat → List Outcome × Nat
  | [] => ([], 0)
  | s :: rest =>
    match handleUpsertStatus s with
    | .fatal c => ([Outcome.fatal c], 1)
    | o => (o :: (runUpserts rest).1, (runUpserts rest).2)

/-- An ec2.Filter: Name and a list of accepted Values. -/
structure Filter where
  name : String
  values : List String
deriving DecidableEq

/-- Go strings.Split for a one-character separator: the substrings between
occurrences of the separator, in order (never an empty list). -/
def goSplit (s : String) (sep : Char) : List String :=
  (s.toList.splitOn sep).map fun cs => String.mk cs

/-- One tag filter: tagPair := strings.Split(tag, "="), then
Name = strings.Join(["tag", tagPair[0]], ":") and Values = [tagPair[1]].
The index tagPair[1] panics (index out of range) when the tag has no
separator; the panic is modelled as none. -/
def tagFilter (tag : String) : Option Filter :=
  let tagPair := goSplit tag '='
  match tagPair.get? 1 with
  | none => none
  | some v => some { name := "tag:" ++ tagPair.headD "", values := [v] }

/-- One iteration of the tag-filter loop: build the filter for one tag and
append it. -/
def filterStep (filters : List Filter) (tag : String) : Option (List Filter) :=
  (tagFilter tag).map fun f => filters ++ [f]

/-- createFilters of the standalone variants: the filter list always starts
with the instance-state-name filter carrying the states verbatim, then one
filter per tag is appended. The declared error result is always nil; the
only failure mode is the tagPair[1] panic. -/
def createFilters (states : List String) (tags : List String) : Option (List Filter) :=
  tags.foldlM filterStep [{ name := "instance-state-name", values := states }]

/-- createFilters of the plugin variant: the state filter is emitted only
when the states string is non-empty (its comma-split list verbatim), and
tag filters only when the tags string is non-empty, one per comma-separated
entry. -/
def pluginCreateFilters (statesStr tagsStr : String) : Option (List Filter) :=
  let stateFilters : List Filter :=
    if 0 < statesStr.length then
      [{ name := "instance-state-name", values := goSplit statesStr ',' }]
    else []
  let tags : List String := if 0 < tagsStr.length then goSplit tagsStr ',' else []
  tags.foldlM filterStep stateFilters

/-- An ec2.Region: RegionName is *string. -/
structure AwsRegion where
  regionName : Option String
deriving DecidableEq

/-- fetchRegions: issues one DescribeRegions call (whose result is the
argument); a call error is returned as is; otherwise every
*region.RegionName is collected in order. The outer Option models the nil
pointer panic. An empty successful result is passed through as ok []. -/
def fetchRegions (describeRegions : Except String (List AwsRegion)) :
    Option (Except String (List String)) :=
  match describeRegions with
  | .error e => some (.error e)
  | .ok rs => (rs.mapM AwsRegion.regionName).map .ok

/-- The region-selection step of main: a non-empty flag-supplied region
list is used unchanged and unvalidated; an empty one triggers the single
live fetchRegions call. -/
def regionsForPass (operatorRegions : List String)
    (describeRegions : Except String (List AwsRegion)) :
    Option (Except String (List String)) :=
  if operatorRegions.length = 0 then fetchRegions describeRegions
  else some (.ok operatorRegions)

/-- The region loop of the standalone main: a DescribeInstances error for a
region is printed and the loop continues with the next region; on success
every instance of every reservation is handed to the instance handler.
Returns the instances processed, in order. -/
def mainRegionLoop (fetch : String → Except String (List (List Ec2Instance))) :
    List String → List Ec2Instance
  | [] => []
  | r :: rest =>
    match fetch r with
    | .error _ => mainRegionLoop fetch rest
    | .ok reservations => reservations.flatten ++ mainRegionLoop fetch rest

/-- The region loop of the plugin discoverInstances: a DescribeInstances
error is log.Fatalf-ed, which exits the process and so aborts the remaining
regions. Returns the instances registered before any abort and whether the
pass aborted. -/
def discoverInstancesRun (fetch : String → Except String (List (List Ec2Instance))) :
    List String → List Ec2Instance × Bool
  | [] => ([], false)
  | r :: rest =>
    match fetch r with
    | .error _ => ([], true)
    | .ok reservations =>
      (reservations.flatten ++ (discoverInstancesRun fetch rest).1,
       (discoverInstancesRun fetch rest).2)

/-- One DescribeInstances response: the reservations of that page (each
holding instances) plus the token locating the next page, if any. -/
structure DescribeOutput where
  reservations : List (List Ec2Instance)
  nextToken : Option String
deriving DecidableEq

/-- The full listing the provider holds for a region, as the sequence of
pages it would serve: every instance of every reservation of every page. -/
def allInstances (pages : List DescribeOutput) : List Ec2Instance :=
  (pages.map fun p => p.reservations.flatten).flatten

/-- What the program consumes for a region: it issues exactly one
DescribeInstances call, which returns the first page, and iterates
result.Reservations; the NextToken field is never read, so later pages are
never requested. -/
def fetchedInstances (pages : List DescribeOutput) : List Ec2Instance :=
  match pages with
  | [] => []
  | p :: _ => p.reservations.flatten

/-- A Sensu Classic client record as built by the classic variant. -/
structure SensuClient where
  name : String
  address : String
  subscriptions : List String
  ec2Tags : List (String × String)
deriving DecidableEq

/-- discoverInstance of the Sensu Classic variant: Name = *InstanceId and
Address = *PublicDnsName are dereferenced unconditionally; a nil pointer
panics (none). Subscriptions is empty, Ec2.Tags is built like the labels. -/
def discoverInstanceClassic (inst : Ec2Instance) : Option SensuClient :=
  match inst.instanceId, inst.publicDnsName with
  | some id, some addr =>
    (tagsToLabels inst.tags).map fun ts =>
      { name := id, address := addr, subscriptions := [], ec2Tags := ts }
  | _, _ => none

/-- manageSensuProxyClient of the classic variant: one draw r of
rand.Intn(len(apis)) picks apis[r]; a GET for the client name is issued
against that endpoint only; on 404 the client is POSTed to the same
endpoint; on 401 an authentication error is returned; any other GET status
is success. The oracles getR and postR give, per endpoint and client name,
the transport outcome (none) or the response status. Returns the endpoints
contacted, in order, and the result. -/
def manageSensuProxyClient (getR postR : String → String → Option Nat)
    (apis : List String) (r : Nat) (client : SensuClient) :
    List String × Except String Unit :=
  match apis.get? r with
  | none => ([], .error "index out of range")
  | some api =>
    match getR api client.name with
    | none => ([api], .error "transport error")
    | some status =>
      if status = 404 then
        match postR api client.name with
        | none => ([api, api], .error "transport error")
        | some _ => ([api, api], .ok ())
      else if status = 401 then
        ([api], .error "Sensu API authentication failure")
      else
        ([api], .ok ())

/-- The per-instance loop of the classic main: each instance is mapped and
handed to manageSensuProxyClient (with its own RNG draw, draws i for the
i-th instance); an error result is printed and the loop continues with the
next instance. Returns the per-instance results and the process exit code,
which is 0 because the loop never exits early. -/
def classicRunInstances (getR postR : String → String → Option Nat)
    (apis : List String) (draws : Nat → Nat) :
    Nat → List SensuClient → List (Except String Unit) × Nat
  | _, [] => ([], 0)
  | i, c :: rest =>
    ((manageSensuProxyClient getR postR apis (draws i) c).2 ::
        (classicRunInstances getR postR apis draws (i + 1) rest).1,
     (classicRunInstances getR postR apis draws (i + 1) rest).2)

/-! ### Lemmas about the label-building loop -/

theorem labelStep_eq_pairStep (m : List (String × String)) (t : Tag) :
    labelStep m t = (pairStep t).map fun p => mapSet m p.1 p.2 := by
  cases t with
  | mk k v => cases k <;> cases v <;> rfl

theorem foldl_mapSet_of_fresh (ps : List (String × String)) :
    ∀ acc : List (String × String),
      (∀ p ∈ ps, ∀ q ∈ acc, q.1 ≠ p.1) →
      ps.Pairwise (fun a b => a.1 ≠ b.1) →
      ps.foldl (fun m p => mapSet m p.1 p.2) acc = acc ++ ps := by
  induction ps with
  | nil => intro acc _ _; simp
  | cons p ps ih =>
    intro acc hacc hpw
    have hfresh : ∀ q ∈ acc, q.1 ≠ p.1 := hacc p (List.mem_cons_self p ps)
    have hstep : mapSet acc p.1 p.2 = acc ++ [p] := by
      unfold mapSet
      rw [List.filter_eq_self.mpr (fun q hq => by simpa using hfresh q hq)]
    rw [List.foldl_cons, hstep]
    have hpw2 := List.pairwise_cons.mp hpw
    rw [ih (acc ++ [p])
      (by
        intro x hx q hq
        rcases List.mem_append.mp hq with hq1 | hq2
        · exact hacc x (List.mem_cons_of_mem p hx) q hq1
        · rw [List.mem_singleton.mp hq2]; exact hpw2.1 x hx)
      hpw2.2]
    simp

theorem foldlM_labelStep (tags : List Tag) :
    ∀ (acc : List (String × String)) (ps : List (String × String)),
      tagPairs tags = some ps →
      tags.foldlM labelStep acc =
        some (ps.foldl (fun m p => mapSet m p.1 p.2) acc) := by
  induction tags with
  | nil =>
    intro acc ps h
    simp only [tagPairs, List.mapM_nil, Option.pure_def, Option.some.injEq] at h
    rw [← h]
    rfl
  | cons t ts ih =>
    intro acc ps h
    simp only [tagPairs, List.mapM_cons] at h
    cases hp : pairStep t with
    | none => rw [hp] at h; simp at h
    | some pr =>
      rw [hp] at h
      cases hps : ts.mapM pairStep with
      | none => rw [hps] at h; simp at h
      | some qs =>
        rw [hps] at h
        simp at h
        rw [List.foldlM_cons]
        show (labelStep acc t >>= fun init => List.foldlM labelStep init ts) = _
        rw [labelStep_eq_pairStep, hp, Option.map_some']
        show List.foldlM labelStep (mapSet acc pr.1 pr.2) ts = _
        rw [ih (mapSet acc pr.1 pr.2) qs hps, ← h]
        simp [List.foldl_cons]

theorem tagsToLabels_of_nodup (tags : List Tag) (ps : List (String × String))
    (hps : tagPairs tags = some ps) (hnd : (ps.map Prod.fst).Nodup) :
    tagsToLabels tags = some ps := by
  have hpw : ps.Pairwise fun a b => a.1 ≠ b.1 := List.pairwise_map.mp hnd
  unfold tagsToLabels
  rw [foldlM_labelStep tags [] ps hps,
      foldl_mapSet_of_fresh ps [] (by simp) hpw]
  simp

theorem discoverInstance_name (i : Ec2Instance) (e : Entity)
    (h : discoverInstance i = some e) : i.instanceId = some e.name := by
  unfold discoverInstance at h
  cases hid : i.instanceId with
  | none => rw [hid] at h; simp at h
  | some id =>
    rw [hid] at h
    cases hls : tagsToLabels i.tags with
    | none => rw [hls] at h; simp at h
    | some ls =>
      rw [hls] at h
      simp only [Option.map_some', Option.some.injEq] at h
      rw [← h]

/-- Claim C1: every raw instance the pipeline processes yields exactly one
entity whose name equals the instance identifier, whose class is the fixed
string "proxy", whose namespace is "default" (discoverInstance) or the
configured one (registerInstance), and whose labels equal the tag key/value
pairs verbatim; the name depends only on the identifier, so two instances
with the same identifier map to the same entity name. -/
theorem C1_entity_mapping (inst : Ec2Instance) (id : String)
    (ps : List (String × String)) (ns : String)
    (hid : inst.instanceId = some id)
    (hps : tagPairs inst.tags = some ps)
    (hnd : (ps.map Prod.fst).Nodup) :
    discoverInstance inst =
        some { name := id, entityNamespace := "default", entityClass := "proxy",
               labels := ps } ∧
    registerInstance ns inst =
        some { name := id, entityNamespace := ns, entityClass := "proxy",
               labels := ps } ∧
    ∀ inst2 e e2, inst2.instanceId = inst.instanceId →
      discoverInstance inst = some e → discoverInstance inst2 = some e2 →
      e2.name = e.name := by
  have hlab : tagsToLabels inst.tags = some ps := tagsToLabels_of_nodup inst.tags ps hps hnd
  refine ⟨?_, ?_, ?_⟩
  · unfold discoverInstance; rw [hid, hlab]; rfl
  · unfold registerInstance; rw [hid, hlab]; rfl
  · intro inst2 e e2 h2 he he2
    have n1 := discoverInstance_name inst e he
    have n2 := discoverInstance_name inst2 e2 he2
    rw [h2, n1] at n2
    exact (Option.some.inj n2).symm

theorem C1_entity_mapping_witness :
    (⟨some "i-aaa", none, [⟨some "env", some "prod"⟩]⟩ : Ec2Instance).instanceId =
        some "i-aaa" ∧
    discoverInstance ⟨some "i-aaa", none, [⟨some "env", some "prod"⟩]⟩ =
      some { name := "i-aaa", entityNamespace := "default", entityClass := "proxy",
             labels := [("env", "prod")] } ∧
    registerInstance "ops" ⟨some "i-aaa", none, [⟨some "env", some "prod"⟩]⟩ =
      some { name := "i-aaa", entityNamespace := "ops", entityClass := "proxy",
             labels := [("env", "prod")] } :=
  have h := C1_entity_mapping ⟨some "i-aaa", none, [⟨some "env", some "prod"⟩]⟩ "i-aaa"
    [("env", "prod")] "ops" rfl rfl (by decide)
  ⟨rfl, h.1, h.2.1⟩

/-- Claim C2 counterexample: a 500 upsert response is not recorded as a
per-instance failed(500) outcome with the pass continuing; both variants
reach the log.Fatalf branch for any status of at least 300 other than 409,
so the process exits and the next instance (status 200 here) is never
attempted. -/
theorem C2_counterexample :
    handleUpsertStatus 500 = Outcome.fatal 500 ∧
    handleRegisterStatus 500 = Outcome.fatal 500 ∧
    runUpserts [500, 200] = ([Outcome.fatal 500], 1) := by
  decide

/-- Claim C2 amended: a 409 response is the already-exists outcome, logged
at informational level, and the pass continues with the next instance; but
every other non-success status (at least 300 and not 409, the 401 and 404
cases included) is handled with log.Fatalf: the process exits with code 1,
aborting the rest of the pass, instead of a per-instance failed(status)
outcome. -/
theorem C2_status_handling (s : Nat) (rest : List Nat)
    (hs : 300 ≤ s) (hne : s ≠ 409) :
    handleUpsertStatus 409 = Outcome.alreadyExists ∧
    handleRegisterStatus 409 = Outcome.alreadyExists ∧
    runUpserts (409 :: rest) =
      (Outcome.alreadyExists :: (runUpserts rest).1, (runUpserts rest).2) ∧
    handleUpsertStatus s = Outcome.fatal s ∧
    handleRegisterStatus s = Outcome.fatal s ∧
    runUpserts (s :: rest) = ([Outcome.fatal s], 1) := by
  have h409 : handleUpsertStatus 409 = Outcome.alreadyExists := by decide
  have hup : handleUpsertStatus s = Outcome.fatal s := by
    unfold handleUpsertStatus
    rcases eq_or_ne s 404 with h | h
    · simp [h]
    · simp [h, hne, hs]
  have hreg : handleRegisterStatus s = Outcome.fatal s := by
    unfold handleRegisterStatus
    rcases eq_or_ne s 404 with h | h
    · simp [h]
    · simp [h, hne, hs]
  refine ⟨h409, by decide, ?_, hup, hreg, ?_⟩
  · show (match handleUpsertStatus 409 with
      | .fatal c => ([Outcome.fatal c], 1)
      | o => (o :: (runUpserts rest).1, (runUpserts rest).2)) = _
    rw [h409]
  · show (match handleUpsertStatus s with
      | .fatal c => ([Outcome.fatal c], 1)
      | o => (o :: (runUpserts rest).1, (runUpserts rest).2)) = _
    rw [hup]

theorem C2_status_handling_witness :
    300 ≤ 500 ∧ (500 : Nat) ≠ 409 ∧
    (handleUpsertStatus 409 = Outcome.alreadyExists ∧
     handleRegisterStatus 409 = Outcome.alreadyExists ∧
     runUpserts (409 :: [200]) =
       (Outcome.alreadyExists :: (runUpserts [200]).1, (runUpserts [200]).2) ∧
     handleUpsertStatus 500 = Outcome.fatal 500 ∧
     handleRegisterStatus 500 = Outcome.fatal 500 ∧
     runUpserts (500 :: [200]) = ([Outcome.fatal 500], 1)) :=
  ⟨by decide, by decide, C2_status_handling 500 [200] (by decide) (by decide)⟩

/-- Claim C3: the spec requires a malformed tag (no separator) to fail
validation as a configuration error before any network call; the code
instead indexes tagPair[1] on the one-element split result, a runtime
panic (index out of range), in both the standalone and plugin variants.
The always-nil declared error result of createFilters shows the intended,
unimplemented validation path. -/
theorem C3_malformed_tag_panics :
    createFilters ["running"] ["environment"] = none ∧
    pluginCreateFilters "pending,running,rebooting" "environment" = none := by
  decide

/-- Claim C4 counterexample for the plugin variant: with regions us-west-1
and us-west-2 where the first fetch fails, discoverInstances hits
log.Fatalf, so the pass aborts and the instance of us-west-2 is never
registered, although the same oracle lets the standalone loop register it. -/
theorem C4_counterexample :
    (fun r => if r = "us-west-1" then Except.error "boom"
              else Except.ok [[(⟨some "i-bbb", none, []⟩ : Ec2Instance)]]) "us-west-2" =
      Except.ok [[(⟨some "i-bbb", none, []⟩ : Ec2Instance)]] ∧
    discoverInstancesRun
      (fun r => if r = "us-west-1" then Except.error "boom"
                else Except.ok [[(⟨some "i-bbb", none, []⟩ : Ec2Instance)]])
      ["us-west-1", "us-west-2"] = ([], true) := by
  constructor
  · rfl
  · decide

/-- Claim C4 amended: in the standalone variant a region fetch failure is
printed and the remaining regions are still processed; in the plugin
variant (discoverInstances) the failure is log.Fatalf-ed, so the pass
aborts and no region is processed at or after the failing one. -/
theorem C4_region_failure (fetch : String → Except String (List (List Ec2Instance)))
    (e : String) (r : String) (rest : List String)
    (hr : fetch r = .error e) :
    mainRegionLoop fetch (r :: rest) = mainRegionLoop fetch rest ∧
    discoverInstancesRun fetch (r :: rest) = ([], true) := by
  constructor
  · show (match fetch r with
      | .error _ => mainRegionLoop fetch rest
      | .ok reservations => reservations.flatten ++ mainRegionLoop fetch rest) = _
    rw [hr]
  · show (match fetch r with
      | .error _ => ([], true)
      | .ok reservations =>
        (reservations.flatten ++ (discoverInstancesRun fetch rest).1,
         (discoverInstancesRun fetch rest).2)) = _
    rw [hr]

theorem C4_region_failure_witness :
    (fun r => if r = "us-west-1" then Except.error "boom"
              else Except.ok ([] : List (List Ec2Instance))) "us-west-1" =
      Except.error "boom" ∧
    (mainRegionLoop
        (fun r => if r = "us-west-1" then Except.error "boom"
                  else Except.ok ([] : List (List Ec2Instance)))
        ["us-west-1", "us-west-2"] =
      mainRegionLoop
        (fun r => if r = "us-west-1" then Except.error "boom"
                  else Except.ok ([] : List (List Ec2Instance)))
        ["us-west-2"] ∧
     discoverInstancesRun
        (fun r => if r = "us-west-1" then Except.error "boom"
                  else Except.ok ([] : List (List Ec2Instance)))
        ["us-west-1", "us-west-2"] = ([], true)) :=
  ⟨rfl, C4_region_failure _ "boom" "us-west-1" ["us-west-2"] rfl⟩

/-! ### Auth failure, region enumeration, pagination -/

theorem classicRunInstances_never_aborts (getR postR : String → String → Option Nat)
    (apis : List String) (draws : Nat → Nat) :
    ∀ (cs : List SensuClient) (i : Nat),
      (classicRunInstances getR postR apis draws i cs).1.length = cs.length ∧
      (classicRunInstances getR postR apis draws i cs).2 = 0 := by
  intro cs
  induction cs with
  | nil => intro i; exact ⟨rfl, rfl⟩
  | cons c rest ih =>
    intro i
    refine ⟨?_, (ih (i + 1)).2⟩
    show ((manageSensuProxyClient getR postR apis (draws i) c).2 ::
        (classicRunInstances getR postR apis draws (i + 1) rest).1).length = _
    simp [(ih (i + 1)).1]

/-- Claim C5 counterexample: in the classic variant a 401 to the first
upsert does not abort the pass; both instances are attempted (each getting
the per-instance authentication error, which main merely prints) and the
process exit code is 0, not non-zero. -/
theorem C5_counterexample :
    classicRunInstances (fun _ _ => some 401) (fun _ _ => some 201) ["http://api-1"]
        (fun _ => 0) 0 [⟨"i-aaa", "a", [], []⟩, ⟨"i-bbb", "b", [], []⟩] =
      ([Except.error "Sensu API authentication failure",
        Except.error "Sensu API authentication failure"], 0) := rfl

/-- Claim C5 amended: in the Sensu Go variants a 401 falls under the
at-least-300 log.Fatalf branch, so the remaining upserts are aborted and
the process exits 1 with no retry; in the classic variant a 401 yields a
per-instance error that is printed, the remaining upserts still run, and
the process exits 0. -/
theorem C5_auth_failure (rest : List Nat) (getR postR : String → String → Option Nat)
    (apis : List String) (draws : Nat → Nat) (i : Nat) (c : SensuClient)
    (cs : List SensuClient) (api : String)
    (hapi : apis.get? (draws i) = some api)
    (hget : getR api c.name = some 401) :
    runUpserts (401 :: rest) = ([Outcome.fatal 401], 1) ∧
    (manageSensuProxyClient getR postR apis (draws i) c).2 =
      Except.error "Sensu API authentication failure" ∧
    (classicRunInstances getR postR apis draws i (c :: cs)).1.length = cs.length + 1 ∧
    (classicRunInstances getR postR apis draws i (c :: cs)).2 = 0 := by
  refine ⟨?_, ?_, ?_, ?_⟩
  · show (match handleUpsertStatus 401 with
      | .fatal c => ([Outcome.fatal c], 1)
      | o => (o :: (runUpserts rest).1, (runUpserts rest).2)) = _
    rw [show handleUpsertStatus 401 = Outcome.fatal 401 by decide]
  · unfold manageSensuProxyClient
    simp only [hapi]
    rw [hget]
    rfl
  · exact (classicRunInstances_never_aborts getR postR apis draws (c :: cs) i).1
  · exact (classicRunInstances_never_aborts getR postR apis draws (c :: cs) i).2

theorem C5_auth_failure_witness :
    (["http://api-1"].get? ((fun _ => 0) 0) = some "http://api-1") ∧
    ((fun _ _ => some 401 : String → String → Option Nat) "http://api-1" "i-aaa" = some 401) ∧
    (runUpserts (401 :: [200]) = ([Outcome.fatal 401], 1) ∧
     (manageSensuProxyClient (fun _ _ => some 401) (fun _ _ => some 201) ["http://api-1"]
        ((fun _ => 0) 0) ⟨"i-aaa", "a", [], []⟩).2 =
       Except.error "Sensu API authentication failure" ∧
     (classicRunInstances (fun _ _ => some 401) (fun _ _ => some 201) ["http://api-1"]
        (fun _ => 0) 0 (⟨"i-aaa", "a", [], []⟩ :: [⟨"i-bbb", "b", [], []⟩])).1.length =
       [(⟨"i-bbb", "b", [], []⟩ : SensuClient)].length + 1 ∧
     (classicRunInstances (fun _ _ => some 401) (fun _ _ => some 201) ["http://api-1"]
        (fun _ => 0) 0 (⟨"i-aaa", "a", [], []⟩ :: [⟨"i-bbb", "b", [], []⟩])).2 = 0) :=
  ⟨rfl, rfl, C5_auth_failure [200] (fun _ _ => some 401) (fun _ _ => some 201)
    ["http://api-1"] (fun _ => 0) 0 ⟨"i-aaa", "a", [], []⟩ [⟨"i-bbb", "b", [], []⟩]
    "http://api-1" rfl rfl⟩

/-- Claim C6 counterexample: a DescribeRegions call that succeeds with an
empty region list is passed through silently as an empty region set with
no error, both by fetchRegions and by the region-selection step of main. -/
theorem C6_counterexample :
    fetchRegions (.ok []) = some (.ok []) ∧
    regionsForPass [] (.ok []) = some (.ok []) :=
  ⟨rfl, rfl⟩

/-- Claim C6 amended: a non-empty operator-supplied region list is returned
unchanged without validation; an empty list triggers the single live
DescribeRegions call, whose failure is the only error condition; a
successful live call is passed through verbatim, so an empty live result
yields an empty region set with no error. -/
theorem C6_region_enumeration (ops ns : List String)
    (d : Except String (List AwsRegion)) (e : String) (rs : List AwsRegion)
    (hops : ops ≠ [])
    (hmap : rs.mapM AwsRegion.regionName = some ns) :
    regionsForPass ops d = some (.ok ops) ∧
    regionsForPass [] (.error e) = some (.error e) ∧
    regionsForPass [] (.ok rs) = some (.ok ns) := by
  refine ⟨?_, rfl, ?_⟩
  · unfold regionsForPass
    rw [if_neg (by simp [List.length_eq_zero]; exact hops)]
  · show Option.map Except.ok (rs.mapM AwsRegion.regionName) = _
    rw [hmap]
    rfl

theorem C6_region_enumeration_witness :
    (["us-west-2"] : List String) ≠ [] ∧
    ([⟨some "us-east-1"⟩] : List AwsRegion).mapM AwsRegion.regionName =
      some ["us-east-1"] ∧
    (regionsForPass ["us-west-2"] (.error "nope") = some (.ok ["us-west-2"]) ∧
     regionsForPass [] (.error "nope") = some (.error "nope") ∧
     regionsForPass [] (.ok [⟨some "us-east-1"⟩]) = some (.ok ["us-east-1"])) :=
  ⟨by decide, rfl, C6_region_enumeration ["us-west-2"] ["us-east-1"]
    (.error "nope") "nope" [⟨some "us-east-1"⟩] (by decide) rfl⟩

/-- Claim C7 counterexample: with a two-page listing, the instance on the
second page is part of the full listing but absent from what the fetcher
produces, because the single DescribeInstances call is never followed up
via NextToken. -/
theorem C7_counterexample :
    (⟨some "i-bbb", none, []⟩ : Ec2Instance) ∈
      allInstances [⟨[[⟨some "i-aaa", none, []⟩]], some "token-1"⟩,
                    ⟨[[⟨some "i-bbb", none, []⟩]], none⟩] ∧
    (⟨some "i-bbb", none, []⟩ : Ec2Instance) ∉
      fetchedInstances [⟨[[⟨some "i-aaa", none, []⟩]], some "token-1"⟩,
                        ⟨[[⟨some "i-bbb", none, []⟩]], none⟩] := by
  decide

/-- Claim C7 amended: the fetcher issues exactly one listing call per
region and flattens the reservations of that single response: an instance
is produced iff it lies in some reservation of the first page; instances
on later pages are never requested. -/
theorem C7_first_page_only (pages : List DescribeOutput) (inst : Ec2Instance) :
    inst ∈ fetchedInstances pages ↔
      ∃ p, pages.head? = some p ∧ ∃ resv ∈ p.reservations, inst ∈ resv := by
  cases pages with
  | nil => simp [fetchedInstances]
  | cons p rest => simp [fetchedInstances, List.mem_flatten]

/-! ### Filter counts, endpoint selection, classic mapper totality -/

theorem foldlM_filterStep_eq (tags : List String) :
    ∀ (init fs : List Filter), tags.mapM tagFilter = some fs →
      tags.foldlM filterStep init = some (init ++ fs) := by
  induction tags with
  | nil =>
    intro init fs h
    simp only [List.mapM_nil, Option.pure_def, Option.some.injEq] at h
    rw [← h]
    simp
  | cons t ts ih =>
    intro init fs h
    simp only [List.mapM_cons] at h
    cases hf : tagFilter t with
    | none => rw [hf] at h; simp at h
    | some f =>
      rw [hf] at h
      cases hts : ts.mapM tagFilter with
      | none => rw [hts] at h; simp at h
      | some gs =>
        rw [hts] at h
        simp at h
        rw [List.foldlM_cons]
        show (filterStep init t >>= fun x => ts.foldlM filterStep x) = _
        simp only [filterStep, hf, Option.map_some']
        show ts.foldlM filterStep (init ++ [f]) = _
        rw [ih (init ++ [f]) gs hts, ← h]
        simp

theorem mapM_tagFilter_length (tags : List String) :
    ∀ fs : List Filter, tags.mapM tagFilter = some fs → fs.length = tags.length := by
  induction tags with
  | nil =>
    intro fs h
    simp only [List.mapM_nil, Option.pure_def, Option.some.injEq] at h
    rw [← h]
    rfl
  | cons t ts ih =>
    intro fs h
    simp only [List.mapM_cons] at h
    cases hf : tagFilter t with
    | none => rw [hf] at h; simp at h
    | some f =>
      rw [hf] at h
      cases hts : ts.mapM tagFilter with
      | none => rw [hts] at h; simp at h
      | some gs =>
        rw [hts] at h
        simp at h
        rw [← h]
        simp [ih gs hts]

/-- Claim C8 counterexample: with empty states the standalone createFilters
still emits the instance-state-name filter (with an empty accepted-value
set), so the filter count is 1 where the claimed formula predicts
len(tags) + 0 = 0. -/
theorem C8_counterexample :
    createFilters [] [] = some [{ name := "instance-state-name", values := [] }] ∧
    (createFilters [] []).map List.length ≠ some 0 := by
  decide

/-- Claim C8 amended: the plugin builder satisfies the claim for every
combination of empty and non-empty criteria: its output is exactly the
state-name filter (present iff the states string is non-empty, carrying
its comma-split values verbatim) followed by one filter per comma-separated
tag entry (present iff the tags string is non-empty), so its count equals
the claimed tag count plus 1 iff states is non-empty. The standalone
builder instead emits the state filter unconditionally: its output is
always the state filter (values = states verbatim, possibly the empty set)
followed by one filter per tag, count len(tags) + 1 even when states is
empty. -/
theorem C8_filter_counts (states tags : List String) (statesStr tagsStr : String)
    (tagFs pluginTagFs : List Filter)
    (hw : tags.mapM tagFilter = some tagFs)
    (hw2 : 0 < tagsStr.length → (goSplit tagsStr ',').mapM tagFilter = some pluginTagFs) :
    createFilters states tags =
      some ({ name := "instance-state-name", values := states } :: tagFs) ∧
    (createFilters states tags).map List.length = some (tags.length + 1) ∧
    pluginCreateFilters statesStr tagsStr =
      some ((if 0 < statesStr.length then
               [{ name := "instance-state-name", values := goSplit statesStr ',' }]
             else []) ++
            (if 0 < tagsStr.length then pluginTagFs else [])) ∧
    (pluginCreateFilters statesStr tagsStr).map List.length =
      some ((if 0 < tagsStr.length then (goSplit tagsStr ',').length else 0) +
            (if 0 < statesStr.length then 1 else 0)) := by
  have hmain : createFilters states tags =
      some ({ name := "instance-state-name", values := states } :: tagFs) := by
    unfold createFilters
    rw [foldlM_filterStep_eq tags _ tagFs hw]
    rfl
  have hplug : pluginCreateFilters statesStr tagsStr =
      some ((if 0 < statesStr.length then
               [{ name := "instance-state-name", values := goSplit statesStr ',' }]
             else []) ++
            (if 0 < tagsStr.length then pluginTagFs else [])) := by
    unfold pluginCreateFilters
    by_cases hts : 0 < tagsStr.length
    · rw [if_pos hts, if_pos hts,
        foldlM_filterStep_eq (goSplit tagsStr ',') _ pluginTagFs (hw2 hts)]
    · rw [if_neg hts, if_neg hts]
      simp
  refine ⟨hmain, ?_, hplug, ?_⟩
  · rw [hmain]
    simp [mapM_tagFilter_length tags tagFs hw]
  · rw [hplug]
    by_cases hts : 0 < tagsStr.length <;>
      by_cases hss : 0 < statesStr.length <;>
        simp [hts, hss] <;>
          have hl := mapM_tagFilter_length (goSplit tagsStr ',') pluginTagFs (hw2 hts) <;>
            omega

theorem C8_filter_counts_witness :
    (["env=prod"].mapM tagFilter = some [{ name := "tag:env", values := ["prod"] }]) ∧
    (0 < "env=prod".length → (goSplit "env=prod" ',').mapM tagFilter =
      some [{ name := "tag:env", values := ["prod"] }]) ∧
    (createFilters ["running"] ["env=prod"] =
       some ({ name := "instance-state-name", values := ["running"] } ::
             [{ name := "tag:env", values := ["prod"] }]) ∧
     (createFilters ["running"] ["env=prod"]).map List.length =
       some (["env=prod"].length + 1) ∧
     pluginCreateFilters "" "env=prod" =
       some ((if 0 < "".length then
                [{ name := "instance-state-name", values := goSplit "" ',' }]
              else []) ++
             (if 0 < "env=prod".length then
                [{ name := "tag:env", values := ["prod"] }]
              else [])) ∧
     (pluginCreateFilters "" "env=prod").map List.length =
       some ((if 0 < "env=prod".length then (goSplit "env=prod" ',').length else 0) +
             (if 0 < "".length then 1 else 0))) :=
  ⟨by decide, fun _ => by decide,
   C8_filter_counts ["running"] ["env=prod"] "" "env=prod"
     [{ name := "tag:env", values := ["prod"] }]
     [{ name := "tag:env", values := ["prod"] }]
     (by decide) (fun _ => by decide)⟩

theorem manageSensuProxyClient_trace (getR postR : String → String → Option Nat)
    (apis : List String) (r : Nat) (c : SensuClient) (api : String)
    (hapi : apis.get? r = some api) :
    (manageSensuProxyClient getR postR apis r c).1 = [api] ∨
    (manageSensuProxyClient getR postR apis r c).1 = [api, api] := by
  unfold manageSensuProxyClient
  simp only [hapi]
  cases getR api c.name with
  | none => left; rfl
  | some status =>
    by_cases h404 : status = 404
    · simp only [if_pos h404]
      cases postR api c.name
      · right; rfl
      · right; rfl
    · by_cases h401 : status = 401
      · simp only [if_neg h404, if_pos h401]
        exact Or.inl trivial
      · simp only [if_neg h404, if_neg h401]
        exact Or.inl trivial

/-- Claim C9: the upsert endpoint is chosen by one rand.Intn draw over the
configured list (a uniform draw maps identically onto list positions, so
the selected index is always a valid position), and every request of the
upsert, the failing ones included, goes to that single chosen endpoint: no
retry against a different endpoint ever happens within an upsert. -/
theorem C9_endpoint_selection (getR postR : String → String → Option Nat)
    (apis : List String) (r : Nat) (c : SensuClient)
    (hr : r < apis.length) :
    (apis.get? r).isSome = true ∧
    (∀ x ∈ (manageSensuProxyClient getR postR apis r c).1, some x = apis.get? r) ∧
    (manageSensuProxyClient getR postR apis r c).1 ≠ [] := by
  cases hapi : apis.get? r with
  | none =>
    exact absurd (List.get?_eq_none.mp hapi) (by omega)
  | some api =>
    refine ⟨rfl, ?_, ?_⟩ <;>
      rcases manageSensuProxyClient_trace getR postR apis r c api hapi with h | h <;>
        rw [h]
    · intro x hx
      rw [List.mem_singleton.mp hx]
    · intro x hx
      rcases List.mem_cons.mp hx with h1 | h1
      · rw [h1]
      · rw [List.mem_singleton.mp h1]
    · simp
    · simp

theorem C9_endpoint_selection_witness :
    1 < (["http://api-1", "http://api-2"] : List String).length ∧
    ((["http://api-1", "http://api-2"].get? 1).isSome = true ∧
     (∀ x ∈ (manageSensuProxyClient (fun _ _ => some 404) (fun _ _ => some 500)
         ["http://api-1", "http://api-2"] 1 ⟨"i-aaa", "a", [], []⟩).1,
       some x = ["http://api-1", "http://api-2"].get? 1) ∧
     (manageSensuProxyClient (fun _ _ => some 404) (fun _ _ => some 500)
         ["http://api-1", "http://api-2"] 1 ⟨"i-aaa", "a", [], []⟩).1 ≠ []) :=
  ⟨by decide, C9_endpoint_selection (fun _ _ => some 404) (fun _ _ => some 500)
    ["http://api-1", "http://api-2"] 1 ⟨"i-aaa", "a", [], []⟩ (by decide)⟩

/-- Claim C10: the classic instance-to-client mapping is total only when
both the instance identifier and the public DNS name are present: an
instance whose PublicDnsName pointer is nil makes discoverInstance panic on
the dereference (none) instead of producing a client with an empty address,
while a fully populated instance maps to the expected client record. -/
theorem C10_classic_nil_dns (inst inst2 : Ec2Instance)
    (id addr : String) (ps : List (String × String))
    (hdns : inst.publicDnsName = none)
    (hid : inst2.instanceId = some id)
    (haddr : inst2.publicDnsName = some addr)
    (hps : tagPairs inst2.tags = some ps)
    (hnd : (ps.map Prod.fst).Nodup) :
    discoverInstanceClassic inst = none ∧
    discoverInstanceClassic inst2 =
      some { name := id, address := addr, subscriptions := [], ec2Tags := ps } := by
  constructor
  · unfold discoverInstanceClassic
    cases hi : inst.instanceId with
    | none => rw [hdns]
    | some id0 => rw [hdns]
  · unfold discoverInstanceClassic
    rw [hid, haddr, tagsToLabels_of_nodup inst2.tags ps hps hnd]
    rfl

theorem C10_classic_nil_dns_witness :
    (⟨some "i-ccc", none, []⟩ : Ec2Instance).publicDnsName = none ∧
    (⟨some "i-aaa", some "ec2-host.example.com",
        [⟨some "env", some "prod"⟩]⟩ : Ec2Instance).instanceId = some "i-aaa" ∧
    (discoverInstanceClassic ⟨some "i-ccc", none, []⟩ = none ∧
     discoverInstanceClassic
        ⟨some "i-aaa", some "ec2-host.example.com", [⟨some "env", some "prod"⟩]⟩ =
       some { name := "i-aaa", address := "ec2-host.example.com",
              subscriptions := [], ec2Tags := [("env", "prod")] }) :=
  ⟨rfl, rfl, C10_classic_nil_dns ⟨some "i-ccc", none, []⟩
    ⟨some "i-aaa", some "ec2-host.example.com", [⟨some "env", some "prod"⟩]⟩
    "i-aaa" "ec2-host.example.com" [("env", "prod")] rfl rfl rfl rfl (by decide)⟩

end SensuEc2
